import Mathlib

/-!
Shallow embedding of the Hodlwarz combat program
(src/combat/hodlwarz_combat/programs/hodlwarz_combat/src/lib.rs).

Machine integers are modelled as `Nat` (timestamps as `Int`).  Where the
source arithmetic can overflow its machine width, the embedded operation
carries an explicit reduction: u32 arithmetic inside the damage pipeline
carries `% M32`, u64 counter increments carry `% U64`, u16 casts carry
`% U16`.  Where a quantity is bounded by construction independently of the
input (for instance the accumulator of the level loop, which never exceeds
about 152000) the reduction is omitted and the bound is noted in a comment.

The 25 individually named `talent_*` fields of the Rust `PlayerState` are
modelled as a list of 25 naturals in source field order (slot 0 =
talent_iron_skin, ..., slot 24 = talent_frenzy); `get_talent`, `set_talent`
and `total_talent_points_spent` translate the source accessors, which treat
those fields exactly as such a positional sequence (the source `get_talent`
returns 0 and `set_talent` is a no-op outside 0..24, matching `List.getD`
and `List.set` on a length-25 list).
-/

def M32 : Nat := 4294967296

def U16 : Nat := 65536

def U64 : Nat := 18446744073709551616

inductive CombatError where
  | NotInitialized
  | AttackerDead
  | VictimDead
  | ArenaInactive
  | AlreadyAlive
  | RespawnCooldown
  | InsufficientXP
  | InvalidStatType
  | MaxLevel
  | InvalidTalentId
  | NoTalentPoints
  | TalentMaxed
  | PrerequisiteNotMet
  | MaxCapstones
  | InvalidHitCount
deriving DecidableEq

structure PlayerState where
  health : Nat
  max_health : Nat
  attack_power : Nat
  xp : Nat
  kills : Nat
  deaths : Nat
  health_level : Nat
  attack_level : Nat
  is_alive : Bool
  respawn_at : Int
  initialized : Bool
  talents : List Nat
  manual_build : Bool
deriving DecidableEq

structure Arena where
  total_kills : Nat
  is_active : Bool
deriving DecidableEq

/-- Source `get_talent` (lib.rs 697-726): positional read, 0 outside 0..24. -/
def get_talent (p : PlayerState) (id : Nat) : Nat :=
  p.talents.getD id 0

/-- Source `set_talent` (lib.rs 728-757): positional write, no-op outside 0..24. -/
def set_talent (p : PlayerState) (id val : Nat) : PlayerState :=
  { p with talents := p.talents.set id val }

/-- Source `total_talent_points_spent` (lib.rs 759-785): sum of the 25 ranks.
The u16 sum of 25 u8 values is at most 6375, so it cannot wrap. -/
def total_talent_points_spent (p : PlayerState) : Nat :=
  p.talents.sum

/-- Source `max_rank_for_talent` (lib.rs 25-32). -/
def max_rank_for_talent (id : Nat) : Nat :=
  if id = 4 ∨ id = 9 ∨ id = 14 ∨ id = 17 ∨ id = 24 then 3
  else if id ≤ 24 then 5
  else 0

/-- Capstone slots, source lib.rs 468. -/
def is_capstone (id : Nat) : Prop :=
  id = 4 ∨ id = 9 ∨ id = 14 ∨ id = 17 ∨ id = 24

instance (id : Nat) : Decidable (is_capstone id) := by
  unfold is_capstone; infer_instance

-- Talent lookup tables (lib.rs 64-88), basis points out of 10000.
def ARMOR_BPS : List Nat := [400, 800, 1200, 1600, 2400]

def HEAVY_HITTER_BPS : List Nat := [400, 800, 1200, 1600, 2400]

def CRIT_EXPECTED_BPS : List Nat := [700, 1680, 3360, 5040, 7000]

def EXECUTE_BPS : List Nat := [800, 1600, 2400, 3200, 4800]

def VITALITY_STRIKE_BPS : List Nat := [25, 40, 60]

def BERSERKER_DMG_BPS : List Nat := [2500, 4000, 5500]

def EXPERIENCE_BPS : List Nat := [1000, 1700, 2400, 3200, 4000]

def IRON_SKIN_BPS : List Nat := [1000, 1500, 2000, 2500, 3000]

/-- Source `lookup_bps` (lib.rs 90-93). -/
def lookup_bps (rank : Nat) (table : List Nat) : Nat :=
  if rank = 0 ∨ table.length < rank then 0 else table.getD (rank - 1) 0

/-- Per-level cost of the progression curve, lib.rs 98-104.  All u64
intermediates here are at most 1970 * 14900 < 2^25, far below 2^64. -/
def levelCost (lvl : Nat) : Nat :=
  let base := (2 * lvl - 1) * 10
  if 50 < lvl then base * (10000 + (lvl - 50) * 100) / 10000 else base

/-- Loop of source `calc_level` (lib.rs 95-111): `fuel` counts the remaining
iterations of `for lvl in 1..100`; the accumulator never exceeds the total
cost of levels 1..99 (about 152000), so no u64 reduction is needed. -/
def calc_level_go (xp : Nat) : Nat → Nat → Nat → Nat
  | _, _, 0 => 100
  | total, lvl, fuel + 1 =>
    let total' := total + levelCost lvl
    if xp < total' then lvl else calc_level_go xp total' (lvl + 1) fuel

/-- Source `calc_level` (lib.rs 95-111). -/
def calc_level (xp : Nat) : Nat :=
  calc_level_go xp 0 1 99

/-- Cumulative cost of levels 1..n of the progression curve (so `cumCost n`
is the experience needed to leave level n behind, and a player sits at
level L exactly when `cumCost (L-1) ≤ xp < cumCost L`). -/
def cumCost : Nat → Nat
  | 0 => 0
  | n + 1 => cumCost n + levelCost (n + 1)

/-- Loop of source `calc_talent_points` (lib.rs 113-124); `fuel` counts the
remaining iterations of `for _ in 0..50`. -/
def calc_talent_points_go (level : Nat) : Nat → Nat → Nat → Nat
  | _, points, 0 => points
  | threshold, points, fuel + 1 =>
    calc_talent_points_go level (threshold + 2)
      (if threshold ≤ level then points + 1 else points) fuel

/-- Source `calc_talent_points` (lib.rs 113-124). -/
def calc_talent_points (level : Nat) : Nat :=
  calc_talent_points_go level 1 0 50

/-- Source `effective_max_health` (lib.rs 126-130): u32 arithmetic, slot 1
(`talent_heavy_hitter`) indexes the iron-skin table. -/
def effective_max_health (p : PlayerState) : Nat :=
  p.max_health * (10000 + lookup_bps (get_talent p 1) IRON_SKIN_BPS) % M32 / 10000

-- ── Damage pipeline (source `compute_hit_damage`, lib.rs 134-186) ──
-- Each stage below embeds one contiguous block of the source function, in
-- source order; `compute_hit_damage` is their composition.  The `E` variants
-- are the same computations without the u32 reductions; they agree with the
-- reduced versions whenever the stats are in u16 range (proved below).

/-- Heavy Hitter stage, lib.rs 137-141 (slot 5 = `talent_swift`). -/
def heavyHitterStage (a : PlayerState) (d : Nat) : Nat :=
  let hh := lookup_bps (get_talent a 5) HEAVY_HITTER_BPS
  if 0 < hh then d * (10000 + hh) % M32 / 10000 else d

/-- Berserker stage, lib.rs 143-151 (slot 24 = `talent_frenzy`). -/
def berserkerStage (a : PlayerState) (d : Nat) : Nat :=
  if 0 < get_talent a 24 then
    let eff := effective_max_health a
    if a.health ≤ eff * 3300 % M32 / 10000 then
      d * (10000 + lookup_bps (get_talent a 24) BERSERKER_DMG_BPS) % M32 / 10000
    else d
  else d

/-- Vitality Strike stage, lib.rs 153-158 (slot 4 = `talent_armor`). -/
def vitalityStage (a : PlayerState) (d : Nat) : Nat :=
  if 0 < get_talent a 4 then
    (d + effective_max_health a * lookup_bps (get_talent a 4) VITALITY_STRIKE_BPS % M32 / 10000) % M32
  else d

/-- Critical Strike expected-value stage, lib.rs 163-168 (slot 7 = `talent_evasion`). -/
def critStage (a : PlayerState) (d : Nat) : Nat :=
  if 0 < get_talent a 7 then
    d * (10000 + lookup_bps (get_talent a 7) CRIT_EXPECTED_BPS) % M32 / 10000
  else d

/-- Execute stage, lib.rs 170-177 (slot 21 = `talent_homing`). -/
def executeStage (a v : PlayerState) (d : Nat) : Nat :=
  if 0 < get_talent a 21 then
    if v.health * 2 % M32 ≤ effective_max_health v then
      d * (10000 + lookup_bps (get_talent a 21) EXECUTE_BPS) % M32 / 10000
    else d
  else d

/-- Armor stage, lib.rs 179-183 (victim slot 0 = `talent_iron_skin`). -/
def armorStage (v : PlayerState) (d : Nat) : Nat :=
  if 0 < get_talent v 0 then
    d * (10000 - min (lookup_bps (get_talent v 0) ARMOR_BPS) 9999) % M32 / 10000
  else d

/-- Source `compute_hit_damage` (lib.rs 134-186): the six stages in source
order with the 500 damage cap between the vitality and crit stages, the
final `max 1`, and the closing `as u16` cast. -/
def compute_hit_damage (a v : PlayerState) : Nat :=
  (max (armorStage v (executeStage a v (critStage a
    (min (vitalityStage a (berserkerStage a (heavyHitterStage a a.attack_power))) 500)))) 1) % U16

-- Reduction-free variants of the same stages, used to state that the u32
-- arithmetic of the pipeline never overflows.

def heavyHitterStageE (a : PlayerState) (d : Nat) : Nat :=
  let hh := lookup_bps (get_talent a 5) HEAVY_HITTER_BPS
  if 0 < hh then d * (10000 + hh) / 10000 else d

def effective_max_healthE (p : PlayerState) : Nat :=
  p.max_health * (10000 + lookup_bps (get_talent p 1) IRON_SKIN_BPS) / 10000

def berserkerStageE (a : PlayerState) (d : Nat) : Nat :=
  if 0 < get_talent a 24 then
    let eff := effective_max_healthE a
    if a.health ≤ eff * 3300 / 10000 then
      d * (10000 + lookup_bps (get_talent a 24) BERSERKER_DMG_BPS) / 10000
    else d
  else d

def vitalityStageE (a : PlayerState) (d : Nat) : Nat :=
  if 0 < get_talent a 4 then
    d + effective_max_healthE a * lookup_bps (get_talent a 4) VITALITY_STRIKE_BPS / 10000
  else d

def critStageE (a : PlayerState) (d : Nat) : Nat :=
  if 0 < get_talent a 7 then
    d * (10000 + lookup_bps (get_talent a 7) CRIT_EXPECTED_BPS) / 10000
  else d

def executeStageE (a v : PlayerState) (d : Nat) : Nat :=
  if 0 < get_talent a 21 then
    if v.health * 2 ≤ effective_max_healthE v then
      d * (10000 + lookup_bps (get_talent a 21) EXECUTE_BPS) / 10000
    else d
  else d

def armorStageE (v : PlayerState) (d : Nat) : Nat :=
  if 0 < get_talent v 0 then
    d * (10000 - min (lookup_bps (get_talent v 0) ARMOR_BPS) 9999) / 10000
  else d

/-- Pre-cap damage: stages 1-4 of the pipeline (base power, heavy hitter,
berserker, vitality strike), before the 500 cap is applied. -/
def preCapDamage (a : PlayerState) : Nat :=
  vitalityStageE a (berserkerStageE a (heavyHitterStageE a a.attack_power))

/-- Post-cap damage: stages 6-9 (crit expected value, execute, armor,
minimum of 1) applied to an already capped value. -/
def postCapDamage (a v : PlayerState) (d : Nat) : Nat :=
  max (armorStageE v (executeStageE a v (critStageE a d))) 1

/-- The whole pipeline without u32 reductions. -/
def compute_hit_damage_exact (a v : PlayerState) : Nat :=
  postCapDamage a v (min (preCapDamage a) 500)

/-- The combat stat fields are in their machine ranges (u16). -/
def StatsInRange (p : PlayerState) : Prop :=
  p.health < 65536 ∧ p.max_health < 65536 ∧ p.attack_power < 65536

instance (p : PlayerState) : Decidable (StatsInRange p) := by
  unfold StatsInRange; infer_instance

-- ── Instruction handlers ──
-- Each handler returns `(error?, new accounts)`.  The source performs all
-- `require!` checks before any mutation; the embedding mirrors that order,
-- returning the accounts as they stand at the point of an early return.

/-- Kill experience formula, lib.rs 303-315.  `victim_level` is at most 100
and `exp_bonus` at most 4000, so the u64 products stay below 2^24. -/
def kill_reward (victim_level exp_bonus : Nat) : Nat :=
  let base := 10 + (victim_level - 1) * 3
  let bounty := if 50 ≤ victim_level then base * 2 else base
  if 0 < exp_bonus then bounty * (10000 + exp_bonus) / 10000 else bounty

/-- Source `process_attack` (lib.rs 276-342).  `now` stands for
`Clock::get()?.unix_timestamp`. -/
def process_attack (now : Int) (attacker victim : PlayerState) (arena : Arena)
    (hit_count : Nat) : Option CombatError × PlayerState × PlayerState × Arena :=
  if attacker.initialized = false then (some .NotInitialized, attacker, victim, arena)
  else if victim.initialized = false then (some .NotInitialized, attacker, victim, arena)
  else if attacker.is_alive = false then (some .AttackerDead, attacker, victim, arena)
  else if victim.is_alive = false then (some .VictimDead, attacker, victim, arena)
  else if arena.is_active = false then (some .ArenaInactive, attacker, victim, arena)
  else if ¬(0 < hit_count ∧ hit_count ≤ 500) then
    (some .InvalidHitCount, attacker, victim, arena)
  else
    let damage_per_hit := compute_hit_damage attacker victim
    -- u32 `saturating_mul` then `.min(u16::MAX)`: `damage_per_hit < 2^16`
    -- and `hit_count ≤ 500`, so the product is below 2^32 and the
    -- saturating multiplication never saturates.
    let total_damage := min (damage_per_hit * hit_count) 65535
    if victim.health ≤ total_damage then
      let vxp := (victim.xp + 5) % U64
      let victim' : PlayerState :=
        { victim with health := 0, is_alive := false,
                      deaths := (victim.deaths + 1) % U64,
                      xp := vxp, respawn_at := now + 5 }
      -- `victim.xp.saturating_sub(XP_PER_DEATH)` is Nat subtraction
      let victim_level := calc_level (vxp - 5)
      let exp_bonus := lookup_bps (get_talent attacker 20) EXPERIENCE_BPS
      let new_xp := (attacker.xp + kill_reward victim_level exp_bonus) % U64
      let new_level := calc_level new_xp
      let attacker' : PlayerState :=
        { attacker with kills := (attacker.kills + 1) % U64, xp := new_xp,
                        health_level := new_level, attack_level := new_level }
      (none, attacker', victim', { arena with total_kills := (arena.total_kills + 1) % U64 })
    else
      (none, attacker, { victim with health := victim.health - total_damage }, arena)

/-- Source `respawn_player` (lib.rs 344-360). -/
def respawn_player (now : Int) (p : PlayerState) : Option CombatError × PlayerState :=
  if p.initialized = false then (some .NotInitialized, p)
  else if p.is_alive = true then (some .AlreadyAlive, p)
  else if now < p.respawn_at then (some .RespawnCooldown, p)
  else
    let eff := effective_max_health p % U16  -- the `as u16` cast
    (none, { p with health := eff, max_health := eff, is_alive := true, respawn_at := 0 })

/-- Source `upgrade_stat` (lib.rs 362-397).  The tier counters are u8 but
guarded below 100, so their increments cannot wrap; `max_health`, `health`
and `attack_power` are unguarded u16 additions. -/
def upgrade_stat (p : PlayerState) (stat_type : Nat) : Option CombatError × PlayerState :=
  if p.initialized = false then (some .NotInitialized, p)
  else if ¬(stat_type = 0 ∨ stat_type = 1) then (some .InvalidStatType, p)
  else
    let current_level := if stat_type = 0 then p.health_level else p.attack_level
    if 100 ≤ current_level then (some .MaxLevel, p)
    else
      let cost := 100 + current_level * 50
      if p.xp < cost then (some .InsufficientXP, p)
      else
        let p' := { p with xp := p.xp - cost }
        if stat_type = 0 then
          (none, { p' with health_level := p'.health_level + 1,
                           max_health := (p'.max_health + 10) % U16,
                           health := if p'.is_alive then (p'.health + 10) % U16 else p'.health })
        else
          (none, { p' with attack_level := p'.attack_level + 1,
                           attack_power := (p'.attack_power + 5) % U16 })

/-- Fresh registered record, source `register_player` (lib.rs 203-245). -/
def register_player_state : PlayerState :=
  { health := 100, max_health := 100, attack_power := 10, xp := 0, kills := 0,
    deaths := 0, health_level := 1, attack_level := 1, is_alive := true,
    respawn_at := 0, initialized := true, talents := List.replicate 25 0,
    manual_build := false }

/-- Source `reset_player` (lib.rs 399-441). -/
def reset_player (p : PlayerState) : Option CombatError × PlayerState :=
  if p.initialized = false then (some .NotInitialized, p)
  else
    (none, { p with health := 100, max_health := 100, attack_power := 10, xp := 0,
                    kills := 0, deaths := 0, health_level := 1, attack_level := 1,
                    is_alive := true, respawn_at := 0,
                    talents := List.replicate 25 0, manual_build := false })

/-- Source `talent_prerequisite` (lib.rs 607-642). -/
def talent_prerequisite (id : Nat) : Option Nat :=
  match id with
  | 0 => none
  | 1 => some 0
  | 2 => some 1
  | 3 => some 2
  | 4 => some 3
  | 5 => none
  | 6 => some 5
  | 7 => some 6
  | 8 => some 7
  | 9 => some 8
  | 10 => none
  | 11 => some 10
  | 12 => some 11
  | 13 => some 12
  | 14 => some 13
  | 15 => none
  | 16 => some 15
  | 19 => some 16
  | 18 => some 19
  | 17 => some 18
  | 20 => none
  | 21 => some 20
  | 22 => some 21
  | 23 => some 22
  | 24 => some 23
  | _ => none

/-- Prerequisite check of `allocate_talent` (lib.rs 462-465) as a Bool. -/
def prereq_ok (p : PlayerState) (id : Nat) : Bool :=
  match talent_prerequisite id with
  | none => true
  | some pid => decide (1 ≤ get_talent p pid)

/-- Count of capstone slots with non-zero rank (lib.rs 470-472). -/
def capstones_chosen (p : PlayerState) : Nat :=
  (([4, 9, 14, 17, 24] : List Nat).filter (fun i => decide (0 < get_talent p i))).length

/-- Source `allocate_talent` (lib.rs 448-481).  The rank increment is a u8
addition guarded below the rank cap (at most 5), so it cannot wrap. -/
def allocate_talent (p : PlayerState) (talent_id : Nat) : Option CombatError × PlayerState :=
  if p.initialized = false then (some .NotInitialized, p)
  else if ¬ talent_id ≤ 24 then (some .InvalidTalentId, p)
  else
    let total_points := calc_talent_points (calc_level p.xp)
    let spent := total_talent_points_spent p
    if total_points ≤ spent then (some .NoTalentPoints, p)
    else
      let current := get_talent p talent_id
      if max_rank_for_talent talent_id ≤ current then (some .TalentMaxed, p)
      else if prereq_ok p talent_id = false then (some .PrerequisiteNotMet, p)
      else if (is_capstone talent_id ∧ current = 0) ∧ 2 ≤ capstones_chosen p then
        (some .MaxCapstones, p)
      else
        (none, { set_talent p talent_id (current + 1) with manual_build := true })

/-- Source `reset_talents` (lib.rs 483-515). -/
def reset_talents (p : PlayerState) : Option CombatError × PlayerState :=
  if p.initialized = false then (some .NotInitialized, p)
  else (none, { p with talents := List.replicate 25 0, manual_build := true })

/-- The talent-budget invariant of the spec data model: spent talent points
never exceed the budget derived from experience. -/
def TalentInv (p : PlayerState) : Prop :=
  total_talent_points_spent p ≤ calc_talent_points (calc_level p.xp)

instance (p : PlayerState) : Decidable (TalentInv p) := by
  unfold TalentInv; infer_instance

-- ── A small trace driver over the exposed operations, used to exhibit
-- reachable states.  One fixed attacker repeatedly fights one victim. ──

structure GState where
  attacker : PlayerState
  victim : PlayerState
  arena : Arena
deriving DecidableEq

inductive Op where
  | attack (now : Int) (hit : Nat)
  | respawnVictim (now : Int)
  | allocate (id : Nat)
  | upgrade (stat : Nat)
deriving DecidableEq

/-- Apply one operation; `none` when the handler returns an error. -/
def stepOp (s : GState) : Op → Option GState
  | .attack now hit =>
    match process_attack now s.attacker s.victim s.arena hit with
    | (none, a, v, ar) => some { attacker := a, victim := v, arena := ar }
    | (some _, _, _, _) => none
  | .respawnVictim now =>
    match respawn_player now s.victim with
    | (none, v) => some { s with victim := v }
    | (some _, _) => none
  | .allocate id =>
    match allocate_talent s.attacker id with
    | (none, a) => some { s with attacker := a }
    | (some _, _) => none
  | .upgrade st =>
    match upgrade_stat s.attacker st with
    | (none, a) => some { s with attacker := a }
    | (some _, _) => none

def runOps : GState → List Op → Option GState
  | s, [] => some s
  | s, op :: rest =>
    match stepOp s op with
    | none => none
    | some s' => runOps s' rest

/-- Both players freshly registered, arena freshly initialized. -/
def initGState : GState :=
  { attacker := register_player_state, victim := register_player_state,
    arena := { total_kills := 0, is_active := true } }

/-- Kill the victim (10 hits of 10 damage against 100 health) and let them
respawn after the 5 second cooldown. -/
def killCycle (k : Nat) : List Op :=
  [Op.attack (10 * (k : Int)) 10, Op.respawnVictim (10 * (k : Int) + 6)]

/-- 29 kills (bringing the attacker to 467 xp, level 7, 4 talent points),
then 4 allocations into slot 0, then one attack-tier upgrade costing 450 xp,
which drops the attacker to 17 xp (level 2, budget 1 < 4 spent). -/
def budgetBreakOps : List Op :=
  (((List.range 29).map killCycle).flatten ++ List.replicate 4 (Op.allocate 0))
    ++ [Op.upgrade 1]

-- ── Concrete records used in examples and counterexamples ──

/-- Attacker with base power 10 and heavy-hitter (bonus damage) rank 1. -/
def heavyHitterRank1 : PlayerState :=
  { register_player_state with talents := (List.replicate 25 0).set 5 1 }

/-- Attacker with attack power 600 and crit rank 5; used to show the crit
multiplier lifts the result above the 500 cap. -/
def critRank5 : PlayerState :=
  { register_player_state with attack_power := 600,
                               talents := (List.replicate 25 0).set 7 5 }

/-- Player with iron-skin (bonus max health) rank 1; slot 1. -/
def ironSkinRank1 : PlayerState :=
  { register_player_state with talents := (List.replicate 25 0).set 1 1 }

/-- Registered attacker with maximal attack power, used to force kills. -/
def maxKiller : PlayerState :=
  { register_player_state with attack_power := 65535 }

def activeArena : Arena := { total_kills := 0, is_active := true }

/-- Victim sitting at u64::MAX experience. -/
def xpMaxVictim : PlayerState :=
  { register_player_state with xp := U64 - 1 }

def uninitPlayer : PlayerState :=
  { register_player_state with initialized := false }

/-- One death/respawn cycle of a player `p`: `maxKiller` kills them at time
0 (65535 aggregate damage always suffices for u16 health) and they respawn
exactly when the 5 second cooldown expires. -/
def deathRespawnCycle (p : PlayerState) : PlayerState :=
  (respawn_player 5 (process_attack 0 maxKiller p activeArena 500).2.2.1).2

def deathRespawnCycles : Nat → PlayerState → PlayerState
  | 0, p => p
  | n + 1, p => deathRespawnCycles n (deathRespawnCycle p)

/-- The max-health inflation map applied by each respawn. -/
def inflate (bps x : Nat) : Nat := x * (10000 + bps) / 10000

def inflateIter (bps : Nat) : Nat → Nat → Nat
  | 0, x => x
  | n + 1, x => inflateIter bps n (inflate bps x)

-- ────────────────────────────────────────────────────────────────────────
-- Theorems
-- ────────────────────────────────────────────────────────────────────────

-- ── Progression curve ──

theorem levelCost_pos {lvl : Nat} (h : 1 ≤ lvl) : 0 < levelCost lvl := by
  simp only [levelCost]
  split
  · refine Nat.div_pos ?_ (by omega)
    calc 10000 ≤ 10000 + (lvl - 50) * 100 := by omega
    _ ≤ (2 * lvl - 1) * 10 * (10000 + (lvl - 50) * 100) :=
        Nat.le_mul_of_pos_left _ (by omega)
  · omega

theorem cumCost_lt_succ (n : Nat) : cumCost n < cumCost (n + 1) := by
  have := levelCost_pos (show 1 ≤ n + 1 by omega)
  simp only [cumCost]
  omega

theorem cumCost_mono {m n : Nat} (h : m ≤ n) : cumCost m ≤ cumCost n := by
  induction h with
  | refl => exact le_refl _
  | step _ ih => exact le_trans ih (le_of_lt (cumCost_lt_succ _))

theorem calc_level_go_spec (fuel : Nat) :
    ∀ k xp, k + 1 + fuel = 100 → cumCost k ≤ xp →
      k + 1 ≤ calc_level_go xp (cumCost k) (k + 1) fuel ∧
      calc_level_go xp (cumCost k) (k + 1) fuel ≤ 100 ∧
      cumCost (calc_level_go xp (cumCost k) (k + 1) fuel - 1) ≤ xp ∧
      (calc_level_go xp (cumCost k) (k + 1) fuel < 100 →
        xp < cumCost (calc_level_go xp (cumCost k) (k + 1) fuel)) := by
  induction fuel with
  | zero =>
    intro k xp hk hle
    have hk99 : k = 99 := by omega
    subst hk99
    simp only [calc_level_go]
    refine ⟨by omega, by omega, by simpa using hle, by omega⟩
  | succ fuel ih =>
    intro k xp hk hle
    have htot : cumCost k + levelCost (k + 1) = cumCost (k + 1) := rfl
    simp only [calc_level_go]
    by_cases hx : xp < cumCost k + levelCost (k + 1)
    · simp only [hx, if_true]
      refine ⟨le_refl _, by omega, by simpa using hle, fun _ => ?_⟩
      rw [← htot]; omega
    · simp only [hx, if_false]
      rw [htot]
      have := ih (k + 1) xp (by omega) (by rw [← htot]; omega)
      exact ⟨by omega, this.2.1, this.2.2.1, this.2.2.2⟩

theorem calc_level_spec (xp : Nat) :
    1 ≤ calc_level xp ∧ calc_level xp ≤ 100 ∧
    cumCost (calc_level xp - 1) ≤ xp ∧
    (calc_level xp < 100 → xp < cumCost (calc_level xp)) := by
  have h := calc_level_go_spec 99 0 xp (by omega) (by simp [cumCost])
  simpa [calc_level, cumCost] using h

theorem le_calc_level {xp L : Nat} (h1 : 1 ≤ L) (h2 : L ≤ 100)
    (h3 : cumCost (L - 1) ≤ xp) : L ≤ calc_level xp := by
  by_contra hcon
  push_neg at hcon
  have hs := calc_level_spec xp
  have hlt : calc_level xp < 100 := lt_of_lt_of_le hcon h2
  have hxlt := hs.2.2.2 hlt
  have hmono : cumCost (calc_level xp) ≤ cumCost (L - 1) := cumCost_mono (by omega)
  omega

theorem calc_level_mono {xp xp' : Nat} (h : xp ≤ xp') :
    calc_level xp ≤ calc_level xp' := by
  have hs := calc_level_spec xp
  exact le_calc_level hs.1 hs.2.1 (le_trans hs.2.2.1 h)

theorem calc_talent_points_go_mono (fuel : Nat) :
    ∀ t p p' l l', p ≤ p' → l ≤ l' →
      calc_talent_points_go l t p fuel ≤ calc_talent_points_go l' t p' fuel := by
  induction fuel with
  | zero =>
    intro t p p' l l' hp _
    simpa [calc_talent_points_go] using hp
  | succ fuel ih =>
    intro t p p' l l' hp hl
    simp only [calc_talent_points_go]
    exact ih _ _ _ _ _ (by split_ifs <;> omega) hl

theorem calc_talent_points_mono {l l' : Nat} (h : l ≤ l') :
    calc_talent_points l ≤ calc_talent_points l' :=
  calc_talent_points_go_mono 50 1 0 0 l l' (le_refl 0) h

theorem talent_budget_mono {xp xp' : Nat} (h : xp ≤ xp') :
    calc_talent_points (calc_level xp) ≤ calc_talent_points (calc_level xp') :=
  calc_talent_points_mono (calc_level_mono h)

/-- C1: `calc_level` returns the largest level L in [1, 100] whose
cumulative cost `cumCost (L - 1)` (the integer-arithmetic cost of levels
1..L-1, with per-level base cost (2·l − 1)·10 scaled above level 50 by
(10000 + (l − 50)·100)/10000, see `levelCost`) does not exceed the
experience; it is bounded to [1, 100] and monotone non-decreasing. -/
theorem C1_calc_level_characterization (xp : Nat) :
    (1 ≤ calc_level xp ∧ calc_level xp ≤ 100) ∧
    (cumCost (calc_level xp - 1) ≤ xp ∧
      ∀ L, 1 ≤ L → L ≤ 100 → cumCost (L - 1) ≤ xp → L ≤ calc_level xp) ∧
    (∀ xp', xp ≤ xp' → calc_level xp ≤ calc_level xp') := by
  have hs := calc_level_spec xp
  exact ⟨⟨hs.1, hs.2.1⟩, ⟨hs.2.2.1, fun L h1 h2 h3 => le_calc_level h1 h2 h3⟩,
    fun xp' h => calc_level_mono h⟩

/-- Witness for C1 at xp = 25: level 2 is reachable (its cumulative cost 10
is at most 25) and monotonicity applies towards xp = 100. -/
theorem C1_calc_level_characterization_witness :
    2 ≤ calc_level 25 ∧ calc_level 25 ≤ calc_level 100 :=
  ⟨(C1_calc_level_characterization 25).2.1.2 2 (by decide) (by decide) (by decide),
   (C1_calc_level_characterization 25).2.2 100 (by decide)⟩

/-- C9 counterexample: at experience 0 the available talent budget is not 0;
`calc_talent_points` grants its first point already at level 1. -/
theorem C9_counterexample : ¬ calc_talent_points (calc_level 0) = 0 := by
  decide

/-- C9 amended: a record with experience 0 has level 1 and exactly one
talent point available. -/
theorem C9_xp_zero_level_one_one_point :
    calc_level 0 = 1 ∧ calc_talent_points (calc_level 0) = 1 := by
  decide

-- ── Damage pipeline bounds ──

theorem lookup_bps_le {r b : Nat} {T : List Nat} (h : ∀ x ∈ T, x ≤ b) :
    lookup_bps r T ≤ b := by
  unfold lookup_bps
  split
  · exact Nat.zero_le b
  · rename_i hcond
    push_neg at hcond
    have hlt : r - 1 < T.length := by omega
    rw [List.getD_eq_getElem T 0 hlt]
    exact h _ (List.getElem_mem hlt)

theorem up_step {d b D B : Nat} (hd : d ≤ D) (hb : b ≤ B) (hM : D * (10000 + B) < M32) :
    d * (10000 + b) % M32 / 10000 = d * (10000 + b) / 10000 ∧
    d * (10000 + b) / 10000 ≤ D * (10000 + B) / 10000 := by
  have hle : d * (10000 + b) ≤ D * (10000 + B) := Nat.mul_le_mul hd (by omega)
  exact ⟨by rw [Nat.mod_eq_of_lt (lt_of_le_of_lt hle hM)], Nat.div_le_div_right hle⟩

theorem effective_max_health_spec {p : PlayerState} (h : p.max_health < 65536) :
    effective_max_health p = effective_max_healthE p ∧ effective_max_healthE p ≤ 85195 := by
  have hb : lookup_bps (get_talent p 1) IRON_SKIN_BPS ≤ 3000 := lookup_bps_le (by decide)
  have hle : p.max_health * (10000 + lookup_bps (get_talent p 1) IRON_SKIN_BPS)
      ≤ 65535 * 13000 := Nat.mul_le_mul (by omega) (by omega)
  unfold effective_max_health effective_max_healthE
  refine ⟨by rw [Nat.mod_eq_of_lt (lt_of_le_of_lt hle (by norm_num [M32]))], ?_⟩
  calc p.max_health * (10000 + lookup_bps (get_talent p 1) IRON_SKIN_BPS) / 10000
      ≤ 65535 * 13000 / 10000 := Nat.div_le_div_right hle
  _ = 85195 := by norm_num

theorem heavyHitterStage_spec {a : PlayerState} {d : Nat} (hd : d ≤ 65535) :
    heavyHitterStage a d = heavyHitterStageE a d ∧ heavyHitterStageE a d ≤ 81263 := by
  have hb : lookup_bps (get_talent a 5) HEAVY_HITTER_BPS ≤ 2400 := lookup_bps_le (by decide)
  simp only [heavyHitterStage, heavyHitterStageE]
  by_cases hc : 0 < lookup_bps (get_talent a 5) HEAVY_HITTER_BPS
  · simp only [hc, if_true]
    have h := up_step hd hb (by norm_num [M32])
    exact ⟨h.1, le_trans h.2 (by norm_num)⟩
  · simp only [hc, if_false]
    exact ⟨by trivial, by omega⟩

theorem berserkerStage_spec {a : PlayerState} {d : Nat} (hd : d ≤ 81263)
    (hmh : a.max_health < 65536) :
    berserkerStage a d = berserkerStageE a d ∧ berserkerStageE a d ≤ 125957 := by
  have hb : lookup_bps (get_talent a 24) BERSERKER_DMG_BPS ≤ 5500 := lookup_bps_le (by decide)
  have heff := effective_max_health_spec hmh
  simp only [berserkerStage, berserkerStageE]
  by_cases hc : 0 < get_talent a 24
  · simp only [hc, if_true, heff.1]
    have hth : effective_max_healthE a * 3300 % M32 = effective_max_healthE a * 3300 := by
      refine Nat.mod_eq_of_lt (lt_of_le_of_lt (Nat.mul_le_mul_right _ heff.2) ?_)
      norm_num [M32]
    rw [hth]
    by_cases hc2 : a.health ≤ effective_max_healthE a * 3300 / 10000
    · simp only [hc2, if_true]
      have h := up_step hd hb (by norm_num [M32])
      exact ⟨h.1, le_trans h.2 (by norm_num)⟩
    · simp only [hc2, if_false]
      exact ⟨by trivial, by omega⟩
  · simp only [hc, if_false]
    exact ⟨by trivial, by omega⟩

theorem vitalityStage_spec {a : PlayerState} {d : Nat} (hd : d ≤ 125957)
    (hmh : a.max_health < 65536) :
    vitalityStage a d = vitalityStageE a d ∧ vitalityStageE a d ≤ 126468 := by
  have hb : lookup_bps (get_talent a 4) VITALITY_STRIKE_BPS ≤ 60 := lookup_bps_le (by decide)
  have heff := effective_max_health_spec hmh
  simp only [vitalityStage, vitalityStageE]
  by_cases hc : 0 < get_talent a 4
  · simp only [hc, if_true, heff.1]
    have hprod : effective_max_healthE a * lookup_bps (get_talent a 4) VITALITY_STRIKE_BPS
        ≤ 85195 * 60 := Nat.mul_le_mul heff.2 hb
    have hm1 : effective_max_healthE a * lookup_bps (get_talent a 4) VITALITY_STRIKE_BPS % M32 =
        effective_max_healthE a * lookup_bps (get_talent a 4) VITALITY_STRIKE_BPS :=
      Nat.mod_eq_of_lt (lt_of_le_of_lt hprod (by norm_num [M32]))
    rw [hm1]
    have hdivle : effective_max_healthE a * lookup_bps (get_talent a 4) VITALITY_STRIKE_BPS / 10000
        ≤ 511 := le_trans (Nat.div_le_div_right hprod) (by norm_num)
    have hm2 : (d + effective_max_healthE a * lookup_bps (get_talent a 4) VITALITY_STRIKE_BPS / 10000)
        % M32 =
        d + effective_max_healthE a * lookup_bps (get_talent a 4) VITALITY_STRIKE_BPS / 10000 :=
      Nat.mod_eq_of_lt (by unfold M32; omega)
    rw [hm2]
    exact ⟨by trivial, by omega⟩
  · simp only [hc, if_false]
    exact ⟨by trivial, by omega⟩

theorem critStage_spec {a : PlayerState} {d : Nat} (hd : d ≤ 500) :
    critStage a d = critStageE a d ∧ critStageE a d ≤ 850 := by
  have hb : lookup_bps (get_talent a 7) CRIT_EXPECTED_BPS ≤ 7000 := lookup_bps_le (by decide)
  simp only [critStage, critStageE]
  by_cases hc : 0 < get_talent a 7
  · simp only [hc, if_true]
    have h := up_step hd hb (by norm_num [M32])
    exact ⟨h.1, le_trans h.2 (by norm_num)⟩
  · simp only [hc, if_false]
    exact ⟨by trivial, by omega⟩

theorem executeStage_spec {a v : PlayerState} {d : Nat} (hd : d ≤ 850)
    (hvh : v.health < 65536) (hvmh : v.max_health < 65536) :
    executeStage a v d = executeStageE a v d ∧ executeStageE a v d ≤ 1258 := by
  have hb : lookup_bps (get_talent a 21) EXECUTE_BPS ≤ 4800 := lookup_bps_le (by decide)
  have heff := effective_max_health_spec hvmh
  simp only [executeStage, executeStageE]
  by_cases hc : 0 < get_talent a 21
  · simp only [hc, if_true, heff.1]
    have hm : v.health * 2 % M32 = v.health * 2 := Nat.mod_eq_of_lt (by unfold M32; omega)
    rw [hm]
    by_cases hc2 : v.health * 2 ≤ effective_max_healthE v
    · simp only [hc2, if_true]
      have h := up_step hd hb (by norm_num [M32])
      exact ⟨h.1, le_trans h.2 (by norm_num)⟩
    · simp only [hc2, if_false]
      exact ⟨by trivial, by omega⟩
  · simp only [hc, if_false]
    exact ⟨by trivial, by omega⟩

theorem armorStage_spec {v : PlayerState} {d : Nat} (hd : d ≤ 1258) :
    armorStage v d = armorStageE v d ∧ armorStageE v d ≤ 1258 := by
  simp only [armorStage, armorStageE]
  by_cases hc : 0 < get_talent v 0
  · simp only [hc, if_true]
    have hle : d * (10000 - min (lookup_bps (get_talent v 0) ARMOR_BPS) 9999) ≤ 1258 * 10000 :=
      Nat.mul_le_mul hd (by omega)
    refine ⟨by rw [Nat.mod_eq_of_lt (lt_of_le_of_lt hle (by norm_num [M32]))], ?_⟩
    exact le_trans (Nat.div_le_div_right hle) (by norm_num)
  · simp only [hc, if_false]
    exact ⟨by trivial, hd⟩

theorem armorStageE_le (v : PlayerState) (d : Nat) : armorStageE v d ≤ d := by
  unfold armorStageE
  split
  · calc d * (10000 - min (lookup_bps (get_talent v 0) ARMOR_BPS) 9999) / 10000
        ≤ d * 10000 / 10000 := Nat.div_le_div_right (Nat.mul_le_mul_left _ (by omega))
    _ = d := Nat.mul_div_cancel _ (by omega)
  · exact le_refl d

theorem compute_hit_damage_eq {a v : PlayerState} (ha : StatsInRange a) (hv : StatsInRange v) :
    compute_hit_damage a v = compute_hit_damage_exact a v ∧
    compute_hit_damage_exact a v ≤ 1258 ∧ 1 ≤ compute_hit_damage a v := by
  obtain ⟨_, ha2, ha3⟩ := ha
  obtain ⟨hv1, hv2, _⟩ := hv
  have h1 := heavyHitterStage_spec (a := a) (d := a.attack_power) (by omega)
  have h2 := berserkerStage_spec h1.2 ha2
  have h3 := vitalityStage_spec h2.2 ha2
  have h5 := critStage_spec (a := a)
    (d := min (vitalityStageE a (berserkerStageE a (heavyHitterStageE a a.attack_power))) 500)
    (min_le_right _ _)
  have h6 := executeStage_spec (a := a) h5.2 hv1 hv2
  have h7 := armorStage_spec (v := v) h6.2
  have hfin : compute_hit_damage_exact a v =
      max (armorStageE v (executeStageE a v (critStageE a
        (min (vitalityStageE a (berserkerStageE a (heavyHitterStageE a a.attack_power))) 500)))) 1 := rfl
  have heq : compute_hit_damage a v = compute_hit_damage_exact a v := by
    rw [compute_hit_damage, h1.1, h2.1, h3.1, h5.1, h6.1, h7.1, hfin]
    have hb : armorStageE v (executeStageE a v (critStageE a
        (min (vitalityStageE a (berserkerStageE a (heavyHitterStageE a a.attack_power))) 500)))
        ≤ 1258 := h7.2
    exact Nat.mod_eq_of_lt (by unfold U16; omega)
  refine ⟨heq, ?_, ?_⟩
  · rw [hfin]
    have hb := h7.2
    omega
  · rw [heq, hfin]
    omega

/-- C10: for all records with u16-range stats and arbitrary talent ranks
(including ranks beyond the table lengths, where `lookup_bps` yields 0),
the u32 damage pipeline computes the same value as its reduction-free
counterpart (so no u32 intermediate ever overflows) and the result is at
most 1258 = cap 500 scaled by the maximal crit (17000/10000) and execute
(14800/10000) multipliers, hence the final u16 conversion never truncates. -/
theorem C10_hit_damage_no_overflow (a v : PlayerState)
    (ha : StatsInRange a) (hv : StatsInRange v) :
    compute_hit_damage a v = compute_hit_damage_exact a v ∧
    compute_hit_damage a v ≤ 1258 := by
  have h := compute_hit_damage_eq ha hv
  exact ⟨h.1, by rw [h.1]; exact h.2.1⟩

/-- Witness for C10 at a full-power attacker against a fresh victim. -/
theorem C10_hit_damage_no_overflow_witness :
    compute_hit_damage maxKiller register_player_state =
      compute_hit_damage_exact maxKiller register_player_state ∧
    compute_hit_damage maxKiller register_player_state ≤ 1258 :=
  C10_hit_damage_no_overflow maxKiller register_player_state (by decide) (by decide)

/-- C3: the per-hit damage is always at least 1; the 500 damage cap is
applied after the bonus-damage (heavy hitter), execute-when-weak
(berserker) and scaling-strike (vitality) stages and before the
critical-strike expected-value, execute-low-target and armor stages, so
the pipeline equals the post-cap stages applied to the capped pre-cap
damage; without crit and execute talents the result never exceeds 500,
while crit alone can push a capped value to 850; and the fixed-point
stages truncate: bonus-damage rank 1 (400 bps) at base power 10 yields
pre-cap damage 10·10400/10000 = 10. -/
theorem C3_hit_damage_floor_and_cap :
    (∀ a v, StatsInRange a → StatsInRange v →
      1 ≤ compute_hit_damage a v ∧
      compute_hit_damage a v = postCapDamage a v (min (preCapDamage a) 500) ∧
      (get_talent a 7 = 0 → get_talent a 21 = 0 → compute_hit_damage a v ≤ 500)) ∧
    preCapDamage heavyHitterRank1 = 10 ∧
    500 < compute_hit_damage critRank5 register_player_state := by
  refine ⟨fun a v ha hv => ?_, by decide, by decide⟩
  have h := compute_hit_damage_eq ha hv
  refine ⟨h.2.2, h.1, fun h7 h21 => ?_⟩
  rw [h.1]
  show postCapDamage a v (min (preCapDamage a) 500) ≤ 500
  unfold postCapDamage critStageE executeStageE
  rw [h7, h21]
  simp only [lt_irrefl, if_false]
  have harm := armorStageE_le v (min (preCapDamage a) 500)
  have hmin : min (preCapDamage a) 500 ≤ 500 := min_le_right _ _
  omega

/-- Witness for C3: a bonus-damage rank 1 attacker still deals at least 1. -/
theorem C3_hit_damage_floor_and_cap_witness :
    1 ≤ compute_hit_damage heavyHitterRank1 register_player_state :=
  (C3_hit_damage_floor_and_cap.1 heavyHitterRank1 register_player_state
    (by decide) (by decide)).1

-- ── Attack resolution ──

theorem kill_reward_le {vl eb : Nat} (hvl : vl ≤ 100) (heb : eb ≤ 4000) :
    kill_reward vl eb ≤ 859 := by
  have hb : ∀ B : Nat, B ≤ 614 → B * (10000 + eb) / 10000 ≤ 859 := fun B hB =>
    le_trans (Nat.div_le_div_right (Nat.mul_le_mul hB (show 10000 + eb ≤ 14000 by omega)))
      (by norm_num)
  simp only [kill_reward]
  split_ifs
  all_goals first
    | omega
    | exact hb _ (by omega)

/-- C2: with both records initialized and alive and the arena active,
`process_attack` fails with `InvalidHitCount` exactly when the hit count is
outside [1, 500]; otherwise it succeeds, the aggregate damage is the
saturating `min (per_hit * hits) 65535` with `per_hit = compute_hit_damage`,
and either the victim dies (health 0, not alive, one more death, the flat
5 xp death award, respawn at now + 5) while the attacker gains a kill, the
`kill_reward` experience (base 10 + 3·(victim level − 1), doubled at level
50+, scaled by the slot-20 experience talent) and has both tier counters
overwritten with `calc_level` of the new experience — or the victim merely
loses exactly the aggregate damage.  The hypotheses keep the u64 counters
away from their wrap-around point. -/
theorem C2_process_attack_characterization (now : Int) (a v : PlayerState) (ar : Arena)
    (hit : Nat)
    (ha : a.initialized = true) (hv : v.initialized = true)
    (haa : a.is_alive = true) (hva : v.is_alive = true) (har : ar.is_active = true)
    (hax : a.xp + 859 < U64) (hvx : v.xp + 5 < U64)
    (hak : a.kills + 1 < U64) (hvd : v.deaths + 1 < U64) (htk : ar.total_kills + 1 < U64) :
    ((process_attack now a v ar hit).1 = some CombatError.InvalidHitCount ↔
      ¬(1 ≤ hit ∧ hit ≤ 500)) ∧
    (1 ≤ hit → hit ≤ 500 →
      (process_attack now a v ar hit).1 = none ∧
      (v.health ≤ min (compute_hit_damage a v * hit) 65535 →
        process_attack now a v ar hit =
          (none,
           { a with kills := a.kills + 1,
                    xp := a.xp + kill_reward (calc_level v.xp)
                            (lookup_bps (get_talent a 20) EXPERIENCE_BPS),
                    health_level := calc_level (a.xp + kill_reward (calc_level v.xp)
                            (lookup_bps (get_talent a 20) EXPERIENCE_BPS)),
                    attack_level := calc_level (a.xp + kill_reward (calc_level v.xp)
                            (lookup_bps (get_talent a 20) EXPERIENCE_BPS)) },
           { v with health := 0, is_alive := false, deaths := v.deaths + 1,
                    xp := v.xp + 5, respawn_at := now + 5 },
           { ar with total_kills := ar.total_kills + 1 })) ∧
      (min (compute_hit_damage a v * hit) 65535 < v.health →
        process_attack now a v ar hit =
          (none, a, { v with health := v.health - min (compute_hit_damage a v * hit) 65535 },
           ar))) := by
  have hmod5 : (v.xp + 5) % U64 = v.xp + 5 := Nat.mod_eq_of_lt hvx
  have hsub5 : v.xp + 5 - 5 = v.xp := by omega
  have heb : lookup_bps (get_talent a 20) EXPERIENCE_BPS ≤ 4000 := lookup_bps_le (by decide)
  have hkr : kill_reward (calc_level v.xp) (lookup_bps (get_talent a 20) EXPERIENCE_BPS) ≤ 859 :=
    kill_reward_le (calc_level_spec v.xp).2.1 heb
  have hmodx : (a.xp + kill_reward (calc_level v.xp)
      (lookup_bps (get_talent a 20) EXPERIENCE_BPS)) % U64 =
      a.xp + kill_reward (calc_level v.xp) (lookup_bps (get_talent a 20) EXPERIENCE_BPS) :=
    Nat.mod_eq_of_lt (by omega)
  have hmodk : (a.kills + 1) % U64 = a.kills + 1 := Nat.mod_eq_of_lt hak
  have hmodd : (v.deaths + 1) % U64 = v.deaths + 1 := Nat.mod_eq_of_lt hvd
  have hmodt : (ar.total_kills + 1) % U64 = ar.total_kills + 1 := Nat.mod_eq_of_lt htk
  simp only [process_attack, ha, hv, haa, hva, har, Bool.true_eq_false, if_false,
             hmod5, hsub5, hmodx, hmodk, hmodd, hmodt]
  constructor
  · by_cases hcnt : 0 < hit ∧ hit ≤ 500
    · rw [if_neg (not_not_intro hcnt)]
      constructor
      · intro hsome
        exfalso
        rcases le_or_lt v.health (min (compute_hit_damage a v * hit) 65535) with hk | hk
        · rw [if_pos hk] at hsome; simp at hsome
        · rw [if_neg (by omega)] at hsome; simp at hsome
      · intro hc
        exact absurd hcnt hc
    · rw [if_pos hcnt]
      exact iff_of_true rfl hcnt
  · intro h1 h2
    have hcnt : 0 < hit ∧ hit ≤ 500 := ⟨h1, h2⟩
    rw [if_neg (not_not_intro hcnt)]
    refine ⟨?_, fun hk => ?_, fun hk => ?_⟩
    · rcases le_or_lt v.health (min (compute_hit_damage a v * hit) 65535) with hk | hk
      · rw [if_pos hk]
      · rw [if_neg (by omega)]
    · rw [if_pos hk]
    · rw [if_neg (by omega)]

/-- Witness for C2: a 501-hit volley between fresh players is rejected with
`InvalidHitCount`. -/
theorem C2_process_attack_characterization_witness :
    (process_attack 0 register_player_state register_player_state activeArena 501).1 =
      some CombatError.InvalidHitCount :=
  ((C2_process_attack_characterization 0 register_player_state register_player_state
    activeArena 501 (by decide) (by decide) (by decide) (by decide) (by decide)
    (by decide) (by decide) (by decide) (by decide) (by decide)).1).mpr (by decide)

-- ── Talent allocation ──

/-- C4: for an initialized record and a slot in [0, 24], `allocate_talent`
fails with `NoTalentPoints` exactly when the spent rank sum has reached the
budget `calc_talent_points (calc_level xp)`; then with `TalentMaxed` exactly
when the slot sits at its rank cap (`max_rank_for_talent`: 3 on the
capstones 4, 9, 14, 17, 24 and 5 elsewhere); then with `PrerequisiteNotMet`
exactly when the slot's predecessor under `talent_prerequisite` (the five
chains, including the non-sequential 15→16→19→18→17) has rank 0; and when
the slot is a capstone at rank 0 it fails with `MaxCapstones` exactly when
two other capstones are already non-zero (under the documented at-most-two
invariant), while a capstone already at positive rank is never re-checked;
otherwise it succeeds, bumping the slot's rank by exactly 1 and setting
`manual_build`. -/
theorem C4_allocate_talent_characterization (p : PlayerState) (id : Nat)
    (hinit : p.initialized = true) (hid : id ≤ 24)
    (hcap : capstones_chosen p ≤ 2) :
    ((allocate_talent p id).1 = some CombatError.NoTalentPoints ↔
      calc_talent_points (calc_level p.xp) ≤ total_talent_points_spent p) ∧
    ((allocate_talent p id).1 = some CombatError.TalentMaxed ↔
      total_talent_points_spent p < calc_talent_points (calc_level p.xp) ∧
      max_rank_for_talent id ≤ get_talent p id) ∧
    ((allocate_talent p id).1 = some CombatError.PrerequisiteNotMet ↔
      total_talent_points_spent p < calc_talent_points (calc_level p.xp) ∧
      get_talent p id < max_rank_for_talent id ∧ prereq_ok p id = false) ∧
    ((allocate_talent p id).1 = some CombatError.MaxCapstones ↔
      total_talent_points_spent p < calc_talent_points (calc_level p.xp) ∧
      get_talent p id < max_rank_for_talent id ∧ prereq_ok p id = true ∧
      is_capstone id ∧ get_talent p id = 0 ∧ capstones_chosen p = 2) ∧
    ((allocate_talent p id).1 = none ↔
      total_talent_points_spent p < calc_talent_points (calc_level p.xp) ∧
      get_talent p id < max_rank_for_talent id ∧ prereq_ok p id = true ∧
      ¬(is_capstone id ∧ get_talent p id = 0 ∧ 2 ≤ capstones_chosen p)) ∧
    ((allocate_talent p id).1 = none →
      (allocate_talent p id).2 =
        { set_talent p id (get_talent p id + 1) with manual_build := true }) := by
  simp only [allocate_talent, hinit, Bool.true_eq_false, if_false]
  rw [if_neg (not_not_intro hid)]
  by_cases h1 : calc_talent_points (calc_level p.xp) ≤ total_talent_points_spent p
  · rw [if_pos h1]
    exact ⟨iff_of_true rfl h1,
      iff_of_false (by simp) (fun h => absurd h.1 (not_lt.mpr h1)),
      iff_of_false (by simp) (fun h => absurd h.1 (not_lt.mpr h1)),
      iff_of_false (by simp) (fun h => absurd h.1 (not_lt.mpr h1)),
      iff_of_false (by simp) (fun h => absurd h.1 (not_lt.mpr h1)),
      by simp⟩
  · rw [if_neg h1]
    have h1' : total_talent_points_spent p < calc_talent_points (calc_level p.xp) :=
      not_le.mp h1
    by_cases h2 : max_rank_for_talent id ≤ get_talent p id
    · rw [if_pos h2]
      exact ⟨iff_of_false (by simp) (fun h => absurd h h1),
        iff_of_true rfl ⟨h1', h2⟩,
        iff_of_false (by simp) (fun h => absurd h.2.1 (not_lt.mpr h2)),
        iff_of_false (by simp) (fun h => absurd h.2.1 (not_lt.mpr h2)),
        iff_of_false (by simp) (fun h => absurd h.2.1 (not_lt.mpr h2)),
        by simp⟩
    · rw [if_neg h2]
      have h2' : get_talent p id < max_rank_for_talent id := not_le.mp h2
      by_cases h3 : prereq_ok p id = false
      · rw [if_pos h3]
        exact ⟨iff_of_false (by simp) (fun h => absurd h h1),
          iff_of_false (by simp) (fun h => absurd h.2 h2),
          iff_of_true rfl ⟨h1', h2', h3⟩,
          iff_of_false (by simp)
            (fun h => by have hb := h.2.2.1; rw [h3] at hb; exact Bool.noConfusion hb),
          iff_of_false (by simp)
            (fun h => by have hb := h.2.2.1; rw [h3] at hb; exact Bool.noConfusion hb),
          by simp⟩
      · rw [if_neg h3]
        have h3' : prereq_ok p id = true := by
          revert h3; cases prereq_ok p id <;> simp
        by_cases h4 : (is_capstone id ∧ get_talent p id = 0) ∧ 2 ≤ capstones_chosen p
        · rw [if_pos h4]
          exact ⟨iff_of_false (by simp) (fun h => absurd h h1),
            iff_of_false (by simp) (fun h => absurd h.2 h2),
            iff_of_false (by simp)
              (fun h => by have hb := h.2.2; rw [h3'] at hb; exact Bool.noConfusion hb),
            iff_of_true rfl ⟨h1', h2', h3', h4.1.1, h4.1.2, by omega⟩,
            iff_of_false (by simp) (fun h => h.2.2.2 ⟨h4.1.1, h4.1.2, h4.2⟩),
            by simp⟩
        · rw [if_neg h4]
          exact ⟨iff_of_false (by simp) (fun h => absurd h h1),
            iff_of_false (by simp) (fun h => absurd h.2 h2),
            iff_of_false (by simp)
              (fun h => by have hb := h.2.2; rw [h3'] at hb; exact Bool.noConfusion hb),
            iff_of_false (by simp)
              (fun h => h4 ⟨⟨h.2.2.2.1, h.2.2.2.2.1⟩, by omega⟩),
            iff_of_true rfl ⟨h1', h2', h3', fun hx => h4 ⟨⟨hx.1, hx.2.1⟩, hx.2.2⟩⟩,
            fun _ => rfl⟩

/-- Witness for C4: a fresh player (budget 1, nothing spent) successfully
allocates tree-root slot 0 to rank 1. -/
theorem C4_allocate_talent_characterization_witness :
    (allocate_talent register_player_state 0).2 =
      { set_talent register_player_state 0 (get_talent register_player_state 0 + 1) with
        manual_build := true } :=
  (C4_allocate_talent_characterization register_player_state 0 (by decide) (by decide)
    (by decide)).2.2.2.2.2 (by decide)

-- ── Error handling ──

/-- C6: every handler performs all of its checks before any mutation, so
whenever a call returns a typed error the player record(s) and the arena
counter it was given are returned exactly unchanged. -/
theorem C6_errors_leave_state_unchanged :
    (∀ now a v ar hit e, (process_attack now a v ar hit).1 = some e →
      (process_attack now a v ar hit).2 = (a, v, ar)) ∧
    (∀ now p e, (respawn_player now p).1 = some e → (respawn_player now p).2 = p) ∧
    (∀ p st e, (upgrade_stat p st).1 = some e → (upgrade_stat p st).2 = p) ∧
    (∀ p id e, (allocate_talent p id).1 = some e → (allocate_talent p id).2 = p) ∧
    (∀ p e, (reset_talents p).1 = some e → (reset_talents p).2 = p) ∧
    (∀ p e, (reset_player p).1 = some e → (reset_player p).2 = p) := by
  refine ⟨?_, ?_, ?_, ?_, ?_, ?_⟩
  · intro now a v ar hit e h
    simp only [process_attack] at h ⊢
    split_ifs at h ⊢ <;> simp_all
  · intro now p e h
    simp only [respawn_player] at h ⊢
    split_ifs at h ⊢ <;> simp_all
  · intro p st e h
    simp only [upgrade_stat] at h ⊢
    split_ifs at h ⊢ <;> simp_all
  · intro p id e h
    simp only [allocate_talent] at h ⊢
    split_ifs at h ⊢ <;> simp_all
  · intro p e h
    simp only [reset_talents] at h ⊢
    split_ifs at h ⊢ <;> simp_all
  · intro p e h
    simp only [reset_player] at h ⊢
    split_ifs at h ⊢ <;> simp_all

/-- Witness for C6: a failing reset on an uninitialized record returns the
record untouched. -/
theorem C6_errors_leave_state_unchanged_witness :
    (reset_player uninitPlayer).2 = uninitPlayer :=
  C6_errors_leave_state_unchanged.2.2.2.2.2 uninitPlayer CombatError.NotInitialized (by decide)

-- ── Arithmetic discipline ──

/-- C7 counterexample: killing a victim that holds u64::MAX experience makes
the `xp += 5` death award wrap silently: the call succeeds and the victim's
stored experience drops from 2^64 − 1 to 4, so not every stat mutation uses
saturating or checked arithmetic. -/
theorem C7_counterexample :
    (process_attack 0 register_player_state xpMaxVictim activeArena 10).1 = none ∧
    ((process_attack 0 register_player_state xpMaxVictim activeArena 10).2.2.1).xp = 4 ∧
    4 < xpMaxVictim.xp := by
  decide

/-- C7 amended: the damage aggregation saturates (it is exactly
min(per_hit · hits, u16::MAX)) and the guarded experience and health
subtractions cannot underflow, but the counter and stat additions are plain
wrapping arithmetic: in `process_attack` the victim's experience and deaths,
the attacker's kills and experience, and the arena's total_kills are u64
additions reduced mod 2^64, and in `upgrade_stat` the max_health, health
and attack_power increases are u16 additions reduced mod 2^16 — all of
which wrap on overflow. -/
theorem C7_saturating_damage_wrapping_counters :
    (∀ (now : Int) (a v : PlayerState) (ar : Arena) (hit : Nat),
      (process_attack now a v ar hit).1 = none →
      min (compute_hit_damage a v * hit) 65535 ≤ 65535 ∧
      (min (compute_hit_damage a v * hit) 65535 < v.health →
        ((process_attack now a v ar hit).2.2.1).health +
          min (compute_hit_damage a v * hit) 65535 = v.health) ∧
      (v.health ≤ min (compute_hit_damage a v * hit) 65535 →
        ((process_attack now a v ar hit).2.2.1).xp = (v.xp + 5) % U64 ∧
        ((process_attack now a v ar hit).2.2.1).deaths = (v.deaths + 1) % U64 ∧
        ((process_attack now a v ar hit).2.1).kills = (a.kills + 1) % U64 ∧
        ((process_attack now a v ar hit).2.1).xp =
          (a.xp + kill_reward (calc_level ((v.xp + 5) % U64 - 5))
            (lookup_bps (get_talent a 20) EXPERIENCE_BPS)) % U64 ∧
        ((process_attack now a v ar hit).2.2.2).total_kills =
          (ar.total_kills + 1) % U64)) ∧
    (∀ (p : PlayerState) (st : Nat), (upgrade_stat p st).1 = none →
      (upgrade_stat p st).2.xp +
        (100 + (if st = 0 then p.health_level else p.attack_level) * 50) = p.xp ∧
      (st = 0 →
        (upgrade_stat p st).2.max_health = (p.max_health + 10) % U16 ∧
        (upgrade_stat p st).2.health =
          (if p.is_alive then (p.health + 10) % U16 else p.health)) ∧
      (st = 1 →
        (upgrade_stat p st).2.attack_power = (p.attack_power + 5) % U16)) := by
  constructor
  · intro now a v ar hit h
    simp only [process_attack] at h ⊢
    split_ifs at h ⊢
    · refine ⟨min_le_right _ _, fun hs => absurd hs (by omega),
        fun _ => ⟨rfl, rfl, rfl, rfl, rfl⟩⟩
    · refine ⟨min_le_right _ _, fun hs => ?_, fun hk => absurd hk (by omega)⟩
      show v.health - min (compute_hit_damage a v * hit) 65535 +
        min (compute_hit_damage a v * hit) 65535 = v.health
      omega
  · intro p st h
    simp only [upgrade_stat] at h ⊢
    split_ifs at h ⊢
    all_goals first
      | exact ⟨by
            show p.xp - (100 + p.health_level * 50) + (100 + p.health_level * 50) = p.xp
            omega,
          fun h0 => ⟨rfl, rfl⟩, fun h1 => absurd h1 (by omega)⟩
      | exact ⟨by
            show p.xp - (100 + p.attack_level * 50) + (100 + p.attack_level * 50) = p.xp
            omega,
          fun h0 => absurd h0 (by omega), fun h1 => rfl⟩

/-- Witness for the amended C7: a fresh-on-fresh kill records the death as
(0 + 1) mod 2^64, and an attack upgrade on a rich player stores
(10 + 5) mod 2^16 attack power. -/
theorem C7_saturating_damage_wrapping_counters_witness :
    ((process_attack 0 register_player_state register_player_state activeArena 10).2.2.1).deaths =
      (register_player_state.deaths + 1) % U64 ∧
    (upgrade_stat xpMaxVictim 1).2.attack_power = (xpMaxVictim.attack_power + 5) % U16 :=
  ⟨((C7_saturating_damage_wrapping_counters.1 0 register_player_state register_player_state
      activeArena 10 (by decide)).2.2 (by decide)).2.1,
   (C7_saturating_damage_wrapping_counters.2 xpMaxVictim 1 (by decide)).2.2 rfl⟩

-- ── Respawn lifecycle ──

theorem inflate_le (bps x : Nat) : x ≤ inflate bps x := by
  unfold inflate
  calc x = x * 10000 / 10000 := (Nat.mul_div_cancel _ (by omega)).symm
  _ ≤ x * (10000 + bps) / 10000 := Nat.div_le_div_right (Nat.mul_le_mul_left _ (by omega))

theorem le_inflateIter (bps n : Nat) : ∀ x, x ≤ inflateIter bps n x := by
  induction n with
  | zero => intro x; exact le_refl x
  | succ n ih => intro x; exact le_trans (inflate_le bps x) (ih (inflate bps x))

theorem respawn_success (now : Int) (p : PlayerState)
    (hinit : p.initialized = true) (hdead : p.is_alive = false)
    (hcd : p.respawn_at ≤ now) :
    respawn_player now p =
      (none, { p with health := effective_max_health p % U16,
                      max_health := effective_max_health p % U16,
                      is_alive := true, respawn_at := 0 }) := by
  simp only [respawn_player, hinit, hdead, Bool.true_eq_false, Bool.false_eq_true, if_false]
  rw [if_neg (not_lt.mpr hcd)]

theorem maxKiller_hit_damage (p : PlayerState) :
    380 ≤ compute_hit_damage maxKiller p ∧ compute_hit_damage maxKiller p ≤ 500 := by
  have harm : 380 ≤ armorStage p 500 ∧ armorStage p 500 ≤ 500 := by
    simp only [armorStage]
    split_ifs with hc
    · have hb : lookup_bps (get_talent p 0) ARMOR_BPS ≤ 2400 := lookup_bps_le (by decide)
      have hlt : 500 * (10000 - min (lookup_bps (get_talent p 0) ARMOR_BPS) 9999) < M32 :=
        lt_of_le_of_lt (Nat.mul_le_mul_left 500
          (show 10000 - min (lookup_bps (get_talent p 0) ARMOR_BPS) 9999 ≤ 10000 by omega))
          (by norm_num [M32])
      rw [Nat.mod_eq_of_lt hlt]
      constructor
      · calc (380 : Nat) = 500 * 7600 / 10000 := by norm_num
          _ ≤ 500 * (10000 - min (lookup_bps (get_talent p 0) ARMOR_BPS) 9999) / 10000 :=
            Nat.div_le_div_right (Nat.mul_le_mul_left _ (by omega))
      · calc 500 * (10000 - min (lookup_bps (get_talent p 0) ARMOR_BPS) 9999) / 10000
            ≤ 500 * 10000 / 10000 := Nat.div_le_div_right (Nat.mul_le_mul_left _ (by omega))
          _ = 500 := by norm_num
    · exact ⟨by omega, le_refl 500⟩
  obtain ⟨h380, h500⟩ := harm
  have e5 : executeStage maxKiller p 500 = 500 := by
    simp [executeStage, show get_talent maxKiller 21 = 0 from rfl]
  have hchain : compute_hit_damage maxKiller p = max (armorStage p 500) 1 % U16 := by
    simp only [compute_hit_damage,
      show heavyHitterStage maxKiller maxKiller.attack_power = 65535 from rfl,
      show berserkerStage maxKiller 65535 = 65535 from rfl,
      show vitalityStage maxKiller 65535 = 65535 from rfl,
      show min (65535 : Nat) 500 = 500 from rfl,
      show critStage maxKiller 500 = 500 from rfl, e5]
  rw [hchain, Nat.max_eq_left (by omega), Nat.mod_eq_of_lt (show armorStage p 500 < U16 by
    unfold U16; omega)]
  exact ⟨h380, h500⟩

theorem maxKiller_kills (p : PlayerState)
    (hinit : p.initialized = true) (halive : p.is_alive = true) (hh : p.health < 65536) :
    (process_attack 0 maxKiller p activeArena 500).2.2.1 =
      { p with health := 0, is_alive := false, deaths := (p.deaths + 1) % U64,
               xp := (p.xp + 5) % U64, respawn_at := 5 } := by
  obtain ⟨h380, h500⟩ := maxKiller_hit_damage p
  have htot : min (compute_hit_damage maxKiller p * 500) 65535 = 65535 := by
    have hm : 380 * 500 ≤ compute_hit_damage maxKiller p * 500 := Nat.mul_le_mul_right _ h380
    omega
  simp only [process_attack,
    show maxKiller.initialized = true from rfl,
    show maxKiller.is_alive = true from rfl,
    show activeArena.is_active = true from rfl,
    hinit, halive, Bool.true_eq_false, if_false]
  rw [if_neg (not_not_intro ⟨by norm_num, le_refl 500⟩), htot,
    if_pos (show p.health ≤ 65535 by omega)]
  simp [zero_add]

theorem deathRespawnCycle_spec (p : PlayerState)
    (hinit : p.initialized = true) (halive : p.is_alive = true)
    (hh : p.health < 65536) (hmh : p.max_health < 65536)
    (hinf : inflate (lookup_bps (get_talent p 1) IRON_SKIN_BPS) p.max_health < 65536) :
    (deathRespawnCycle p).max_health =
      inflate (lookup_bps (get_talent p 1) IRON_SKIN_BPS) p.max_health ∧
    (deathRespawnCycle p).health =
      inflate (lookup_bps (get_talent p 1) IRON_SKIN_BPS) p.max_health ∧
    (deathRespawnCycle p).is_alive = true ∧
    (deathRespawnCycle p).initialized = true ∧
    (deathRespawnCycle p).talents = p.talents := by
  have hv := maxKiller_kills p hinit halive hh
  have hbps : lookup_bps (get_talent p 1) IRON_SKIN_BPS ≤ 3000 := lookup_bps_le (by decide)
  unfold deathRespawnCycle
  rw [hv, respawn_success 5 _ (by simpa using hinit) (by simp) (by simp)]
  have heff : effective_max_health
      { p with health := 0, is_alive := false, deaths := (p.deaths + 1) % U64,
               xp := (p.xp + 5) % U64, respawn_at := 5 } =
      inflate (lookup_bps (get_talent p 1) IRON_SKIN_BPS) p.max_health := by
    show p.max_health * (10000 + lookup_bps (p.talents.getD 1 0) IRON_SKIN_BPS) % M32 / 10000 = _
    rw [Nat.mod_eq_of_lt (lt_of_le_of_lt
      (Nat.mul_le_mul (show p.max_health ≤ 65535 by omega)
        (show 10000 + lookup_bps (p.talents.getD 1 0) IRON_SKIN_BPS ≤ 13000 by
          have : lookup_bps (p.talents.getD 1 0) IRON_SKIN_BPS ≤ 3000 := hbps
          omega))
      (by norm_num [M32]))]
    rfl
  rw [heff, Nat.mod_eq_of_lt (by unfold U16; omega)]
  exact ⟨rfl, rfl, rfl, hinit, rfl⟩

theorem deathRespawnCycles_spec (n : Nat) :
    ∀ p, p.initialized = true → p.is_alive = true →
      p.health < 65536 → p.max_health < 65536 →
      inflateIter (lookup_bps (get_talent p 1) IRON_SKIN_BPS) n p.max_health < 65536 →
      (deathRespawnCycles n p).max_health =
        inflateIter (lookup_bps (get_talent p 1) IRON_SKIN_BPS) n p.max_health := by
  induction n with
  | zero => intro p _ _ _ _ _; rfl
  | succ n ih =>
    intro p h1 h2 h3 h4 h5
    have h5' : inflateIter (lookup_bps (get_talent p 1) IRON_SKIN_BPS) n
        (inflate (lookup_bps (get_talent p 1) IRON_SKIN_BPS) p.max_health) < 65536 := h5
    have hinf : inflate (lookup_bps (get_talent p 1) IRON_SKIN_BPS) p.max_health < 65536 :=
      lt_of_le_of_lt (le_inflateIter _ n _) h5'
    have hc := deathRespawnCycle_spec p h1 h2 h3 h4 hinf
    have htal : get_talent (deathRespawnCycle p) 1 = get_talent p 1 := by
      unfold get_talent; rw [hc.2.2.2.2]
    show (deathRespawnCycles n (deathRespawnCycle p)).max_health = _
    rw [ih (deathRespawnCycle p) hc.2.2.2.1 hc.2.2.1 (by rw [hc.2.1]; exact hinf)
      (by rw [hc.1]; exact hinf) (by rw [htal, hc.1]; exact h5')]
    rw [htal, hc.1]
    rfl

/-- C8: an initialized record's respawn fails with `AlreadyAlive` exactly
when the player is alive, with `RespawnCooldown` exactly when the clock is
before `respawn_at`; on success both health and max_health are set to the
effective max health (the stored max_health inflated by the slot-1 bonus
max-health talent) and the cooldown is cleared.  Consequently each
death/respawn cycle applies the integer inflation map to the stored
max_health again: n cycles yield `inflateIter` of the factor applied n
times (geometric compounding, e.g. 100 → 110 → 121 at rank 1), not an
idempotent restore. -/
theorem C8_respawn_and_compounding :
    (∀ now p, p.initialized = true →
      ((respawn_player now p).1 = some CombatError.AlreadyAlive ↔ p.is_alive = true) ∧
      (p.is_alive = false →
        ((respawn_player now p).1 = some CombatError.RespawnCooldown ↔ now < p.respawn_at)) ∧
      (p.is_alive = false → p.respawn_at ≤ now → effective_max_health p < U16 →
        respawn_player now p =
          (none, { p with health := effective_max_health p,
                          max_health := effective_max_health p,
                          is_alive := true, respawn_at := 0 }))) ∧
    (∀ p n, p.initialized = true → p.is_alive = true →
      p.health < 65536 → p.max_health < 65536 →
      inflateIter (lookup_bps (get_talent p 1) IRON_SKIN_BPS) n p.max_health < 65536 →
      (deathRespawnCycles n p).max_health =
        inflateIter (lookup_bps (get_talent p 1) IRON_SKIN_BPS) n p.max_health) ∧
    inflateIter 1000 2 100 = 121 := by
  refine ⟨fun now p hinit => ?_,
    fun p n h1 h2 h3 h4 h5 => deathRespawnCycles_spec n p h1 h2 h3 h4 h5, by decide⟩
  refine ⟨?_, fun hdead => ?_, fun hdead hcd heff => ?_⟩
  · by_cases hal : p.is_alive = true
    · have hsome : respawn_player now p = (some CombatError.AlreadyAlive, p) := by
        unfold respawn_player
        rw [if_neg (by simp [hinit]), if_pos hal]
      rw [hsome]
      exact iff_of_true rfl hal
    · have hal' : p.is_alive = false := by revert hal; cases p.is_alive <;> simp
      have hne : (respawn_player now p).1 ≠ some CombatError.AlreadyAlive := by
        unfold respawn_player
        rw [if_neg (by simp [hinit]), if_neg (by simp [hal'])]
        split_ifs <;> simp
      exact iff_of_false hne hal
  · simp only [respawn_player, hinit, hdead, Bool.true_eq_false, Bool.false_eq_true, if_false]
    by_cases hlt : now < p.respawn_at
    · rw [if_pos hlt]
      exact iff_of_true rfl hlt
    · rw [if_neg hlt]
      exact iff_of_false (by simp) hlt
  · rw [respawn_success now p hinit hdead hcd, Nat.mod_eq_of_lt heff]

/-- Witness for C8: two death/respawn cycles of an iron-skin rank 1 player
compound 100 to 121. -/
theorem C8_respawn_and_compounding_witness :
    (deathRespawnCycles 2 ironSkinRank1).max_health = 121 :=
  (C8_respawn_and_compounding.2.1 ironSkinRank1 2 (by decide) (by decide) (by decide) (by decide)
    (by decide)).trans (by decide)

-- ── Talent-budget invariant ──

theorem sum_set_add_getD : ∀ (l : List Nat) (i a : Nat), i < l.length →
    (l.set i a).sum + l.getD i 0 = l.sum + a := by
  intro l
  induction l with
  | nil => intro i a h; simp at h
  | cons x xs ih =>
    intro i a h
    cases i with
    | zero => simp [List.getD]; omega
    | succ i =>
      have hlt : i < xs.length := by simpa using h
      have := ih i a hlt
      simp only [List.set, List.sum_cons, List.getD_cons_succ]
      omega

theorem allocate_talent_preserves_inv (p : PlayerState) (id : Nat)
    (hlen : p.talents.length = 25) (hinv : TalentInv p) :
    TalentInv (allocate_talent p id).2 := by
  unfold TalentInv at *
  simp only [allocate_talent]
  split_ifs with g1 g2 g3 g4 g5 g6
  all_goals try exact hinv
  show (p.talents.set id (get_talent p id + 1)).sum ≤ calc_talent_points (calc_level p.xp)
  have hid : id < p.talents.length := by omega
  have hsum := sum_set_add_getD p.talents id (get_talent p id + 1) hid
  have hspent : total_talent_points_spent p < calc_talent_points (calc_level p.xp) :=
    not_le.mp g3
  unfold total_talent_points_spent at hspent
  unfold get_talent at hsum ⊢
  omega

theorem reset_talents_preserves_inv (p : PlayerState) (hinv : TalentInv p) :
    TalentInv (reset_talents p).2 := by
  unfold TalentInv at *
  unfold reset_talents
  split_ifs
  · exact hinv
  · show (List.replicate 25 0).sum ≤ _
    simp

theorem reset_player_preserves_inv (p : PlayerState) (hinv : TalentInv p) :
    TalentInv (reset_player p).2 := by
  unfold TalentInv at *
  unfold reset_player
  split_ifs
  · exact hinv
  · show (List.replicate 25 0).sum ≤ _
    simp

theorem respawn_player_preserves_inv (now : Int) (p : PlayerState) (hinv : TalentInv p) :
    TalentInv (respawn_player now p).2 := by
  unfold TalentInv at *
  unfold respawn_player
  split_ifs
  all_goals exact hinv

theorem process_attack_preserves_inv (now : Int) (a v : PlayerState) (ar : Arena) (hit : Nat)
    (hax : a.xp + 859 < U64) (hvx : v.xp + 5 < U64)
    (hia : TalentInv a) (hiv : TalentInv v) :
    TalentInv (process_attack now a v ar hit).2.1 ∧
    TalentInv (process_attack now a v ar hit).2.2.1 := by
  have hmod5 : (v.xp + 5) % U64 = v.xp + 5 := Nat.mod_eq_of_lt hvx
  have heb : lookup_bps (get_talent a 20) EXPERIENCE_BPS ≤ 4000 := lookup_bps_le (by decide)
  unfold TalentInv at *
  simp only [process_attack, hmod5]
  split_ifs with g1 g2 g3 g4 g5 g6 g7
  all_goals try exact ⟨hia, hiv⟩
  · constructor
    · show a.talents.sum ≤ calc_talent_points (calc_level
        ((a.xp + kill_reward (calc_level (v.xp + 5 - 5))
          (lookup_bps (get_talent a 20) EXPERIENCE_BPS)) % U64))
      have hlev : calc_level (v.xp + 5 - 5) ≤ 100 := (calc_level_spec _).2.1
      have hk : kill_reward (calc_level (v.xp + 5 - 5))
          (lookup_bps (get_talent a 20) EXPERIENCE_BPS) ≤ 859 := kill_reward_le hlev heb
      rw [Nat.mod_eq_of_lt (by omega)]
      exact le_trans hia (talent_budget_mono (by omega))
    · show v.talents.sum ≤ calc_talent_points (calc_level (v.xp + 5))
      exact le_trans hiv (talent_budget_mono (by omega))

/-- C5 counterexample: a state reachable from registration violates the
talent-budget invariant.  The attacker makes 29 kills (467 xp, level 7,
budget 4), spends all 4 points on slot 0, then buys one attack-tier
upgrade for 450 xp; the remaining 17 xp is level 2 with budget 1, while 4
points stay spent — the exposed operation `upgrade_stat` does not preserve
the invariant. -/
theorem C5_counterexample :
    (runOps initGState budgetBreakOps).any (fun s =>
      decide (calc_talent_points (calc_level s.attacker.xp) <
        total_talent_points_spent s.attacker)) = true := by
  decide

/-- C5 amended: the talent-budget invariant (spent ranks at most
`calc_talent_points (calc_level xp)`) holds at registration and is
preserved by talent allocation, talent reset, player reset, respawn, and
attack resolution (the latter assuming the u64 experience counters stay
below their wrap point) — but not by `upgrade_stat`, which deducts
experience without re-checking the budget, so reachable states can violate
it (see the counterexample). -/
theorem C5_invariant_outside_upgrade :
    TalentInv register_player_state ∧
    (∀ p id, p.talents.length = 25 → TalentInv p → TalentInv (allocate_talent p id).2) ∧
    (∀ p, TalentInv p → TalentInv (reset_talents p).2) ∧
    (∀ p, TalentInv p → TalentInv (reset_player p).2) ∧
    (∀ now p, TalentInv p → TalentInv (respawn_player now p).2) ∧
    (∀ now a v ar hit, a.xp + 859 < U64 → v.xp + 5 < U64 → TalentInv a → TalentInv v →
      TalentInv (process_attack now a v ar hit).2.1 ∧
      TalentInv (process_attack now a v ar hit).2.2.1) :=
  ⟨by decide, allocate_talent_preserves_inv, reset_talents_preserves_inv,
   reset_player_preserves_inv, respawn_player_preserves_inv,
   fun now a v ar hit hax hvx hia hiv =>
     process_attack_preserves_inv now a v ar hit hax hvx hia hiv⟩

/-- Witness for the amended C5: allocating slot 0 on a fresh player keeps
the invariant. -/
theorem C5_invariant_outside_upgrade_witness :
    TalentInv (allocate_talent register_player_state 0).2 :=
  C5_invariant_outside_upgrade.2.1 register_player_state 0 (by decide) (by decide)
